import Mathlib

/-!
Verification of the SecureProxy Python client
(`src/SecureProxy/Python/client.py`) against its natural-language
specification.

Byte strings are modelled as `List ℕ` (each element a byte value `< 256`
where it matters); machine integers are `ℕ`/`ℤ`.  Each definition below is
a shallow embedding of the corresponding Python function, with the source
line numbers noted in its doc comment.
-/

/-- ASCII bytes of a string literal.  All literals occurring in the client
are pure ASCII, for which Python's UTF-8 encoding agrees byte-for-byte with
`Char.toNat` of each character. -/
def asciiStr (s : String) : List ℕ :=
  s.data.map Char.toNat

/-- Model of `reader.readexactly(n)` on a byte stream: returns the first `n` bytes
and the remaining stream, or `none` when the stream is too short (the
Python call would raise `IncompleteReadError`). -/
def readexactly (n : ℕ) (s : List ℕ) : Option (List ℕ × List ℕ) :=
  if n ≤ s.length then some (s.take n, s.drop n) else none

/-- Model of `int.to_bytes(k, 'big')`: big-endian fixed-width byte encoding. -/
def toBytesBE : ℕ → ℕ → List ℕ
  | 0, _ => []
  | k + 1, n => toBytesBE k (n / 256) ++ [n % 256]

/-- Model of `int.from_bytes(l, 'big')`: big-endian byte decoding. -/
def fromBytesBE (l : List ℕ) : ℕ :=
  l.foldl (fun acc b => acc * 256 + b) 0

/-- Helper for `maskBytes`: XOR byte `i + j` of the payload with
`mask[(i + j) mod 4]`. -/
def maskBytesGo (mask : List ℕ) : ℕ → List ℕ → List ℕ
  | _, [] => []
  | i, b :: bs => (b ^^^ mask.getD (i % 4) 0) :: maskBytesGo mask (i + 1) bs

/-- The masking loop of `VideoOptimizedWebSocket.send`
(client.py lines 307-309): `masked[i] ^= mask[i % 4]`. -/
def maskBytes (mask data : List ℕ) : List ℕ :=
  maskBytesGo mask 0 data

/-- Frame construction of `VideoOptimizedWebSocket.send`
(client.py lines 285-312): first byte `0x82` (FIN=1, opcode binary);
second byte `0x80 ||| L7` with the 2- or 8-byte big-endian length
extension; then the 4-byte mask and the masked payload.  The mask is
`os.urandom(4)` at runtime; here it is a parameter. -/
def buildFrame (mask data : List ℕ) : List ℕ :=
  let length := data.length
  let lenBytes :=
    if length < 126 then [0x80 ||| length]
    else if length < 65536 then [0x80 ||| 126] ++ toBytesBE 2 length
    else [0x80 ||| 127] ++ toBytesBE 8 length
  0x82 :: lenBytes ++ mask ++ maskBytes mask data

/-- Model of `VideoOptimizedWebSocket.recv` (client.py lines 318-337): read a
2-byte header, take `header[1] &&& 0x7F` as the length field (reading the
2- or 8-byte big-endian extension when it is 126 or 127), then read
exactly `length` payload bytes and return them verbatim together with the
rest of the stream.  The first header byte (FIN/opcode) and the mask bit
of the second byte are never examined, and no mask key is read. -/
def recvFrame (s : List ℕ) : Option (List ℕ × List ℕ) :=
  match readexactly 2 s with
  | none => none
  | some (header, s1) =>
    let l0 := header.getD 1 0 &&& 0x7F
    if l0 = 126 then
      match readexactly 2 s1 with
      | none => none
      | some (lb, s2) => readexactly (fromBytesBE lb) s2
    else if l0 = 127 then
      match readexactly 8 s1 with
      | none => none
      | some (lb, s2) => readexactly (fromBytesBE lb) s2
    else
      readexactly l0 s1

/-! ## Crypto facade

`derive_keys`, `encrypt`, `decrypt` live in the external `crypto` module
(not part of this repository's sources) and `hmac` is the Python standard
library; the client treats all of them as opaque byte→byte functions, so
they are abstracted as a structure of function parameters. -/

structure CryptoOps where
  deriveKeys : List ℕ → List ℕ → List ℕ × List ℕ
  hmacSha256 : List ℕ → List ℕ → List ℕ
  encrypt : List ℕ → List ℕ → List ℕ
  decrypt : List ℕ → List ℕ → List ℕ

/-- Errors raised by the handshake body of `create_secure_connection`. -/
inductive HsErr where
  | timeout
  | serverPubLen
  | authFailed
  | connectRejected (reason : List ℕ)
deriving DecidableEq

/-- Take the next incoming WebSocket frame, if any (a missing frame models
the 2-second `asyncio.wait_for` on `ws.recv()` expiring). -/
def recv1 : List (List ℕ) → Option (List ℕ × List (List ℕ))
  | [] => none
  | f :: fs => some (f, fs)

structure HsOut where
  sent : List (List ℕ)
  result : Except HsErr (List ℕ × List ℕ)

/-- The handshake body of `create_secure_connection` (client.py lines
384-416), for one attempt with an already-connected WebSocket:

* send the 32-byte random `client_pub` (line 384-385);
* receive `server_pub` and require length exactly 32 (lines 386-389);
* `salt = client_pub + server_pub`, `(send_key, recv_key) =
  derive_keys(psk, salt)` (lines 392-394);
* send `HMAC-SHA256(send_key, b"auth")`, receive a frame and compare it
  with `HMAC-SHA256(recv_key, b"ok")` via `hmac.compare_digest`
  (constant-time, semantically plain equality; lines 397-403);
* send `encrypt(send_key, ("CONNECT " + target).encode())`, receive a
  frame and require `decrypt(recv_key, ·) = b"OK"`, otherwise fail
  carrying the decrypted bytes as the rejection reason (lines 406-412).

`sent` records every frame passed to `ws.send`, in order. -/
def attemptHandshake (C : CryptoOps) (psk target clientPub : List ℕ)
    (incoming : List (List ℕ)) : HsOut :=
  let sent0 := [clientPub]
  match recv1 incoming with
  | none => ⟨sent0, .error .timeout⟩
  | some (serverPub, inc1) =>
    if serverPub.length ≠ 32 then ⟨sent0, .error .serverPubLen⟩
    else
      let salt := clientPub ++ serverPub
      let keys := C.deriveKeys psk salt
      let sendKey := keys.1
      let recvKey := keys.2
      let authDigest := C.hmacSha256 sendKey (asciiStr "auth")
      let sent1 := sent0 ++ [authDigest]
      match recv1 inc1 with
      | none => ⟨sent1, .error .timeout⟩
      | some (authResponse, inc2) =>
        let expected := C.hmacSha256 recvKey (asciiStr "ok")
        if authResponse ≠ expected then ⟨sent1, .error .authFailed⟩
        else
          let connectCmd := asciiStr "CONNECT " ++ target
          let sent2 := sent1 ++ [C.encrypt sendKey connectCmd]
          match recv1 inc2 with
          | none => ⟨sent2, .error .timeout⟩
          | some (response, _) =>
            let plaintext := C.decrypt recvKey response
            if plaintext ≠ asciiStr "OK" then
              ⟨sent2, .error (.connectRejected plaintext)⟩
            else ⟨sent2, .ok (sendKey, recvKey)⟩

/-! ## Retry loop of `create_secure_connection` -/

/-- Exception classes relevant to the retry loop: `asyncio.TimeoutError`
versus a plain `Exception`. -/
inductive PyErr where
  | timeoutError
  | exception
deriving DecidableEq

/-- What happens during one attempt of the `for attempt in
range(MAX_RETRIES + 1)` loop of `create_secure_connection`
(client.py lines 374-436). -/
inductive AttemptEv where
  /-- Event: `asyncio.wait_for(open_connection ..., CONNECT_TIMEOUT)` expires
  inside `VideoOptimizedWebSocket.connect`. -/
  | tcpConnectTimeout
  /-- TCP/TLS connect fails inside `VideoOptimizedWebSocket.connect`. -/
  | tcpConnectFail
  /-- the WebSocket upgrade `wait_for(..., HANDSHAKE_TIMEOUT)` expires
  inside `VideoOptimizedWebSocket.connect`. -/
  | upgradeTimeout
  /-- the WebSocket upgrade fails (e.g. no `101` status line). -/
  | upgradeFail
  /-- an `asyncio.TimeoutError` escapes the attempt body itself: one of
  the `wait_for(ws.recv(), 2)` calls, or the `SEND_TIMEOUT` `wait_for`
  inside `ws.send`. -/
  | stepTimeout
  /-- an ordinary `Exception` from the handshake steps: wrong
  `server_pub` length, failed authentication, or a rejected CONNECT. -/
  | protocolFail
  /-- the attempt succeeds. -/
  | success
deriving DecidableEq

/-- Which exception class, if any, each attempt event raises into the
retry loop.  `VideoOptimizedWebSocket.connect` catches
`asyncio.TimeoutError` from both its phases and re-raises a plain
`Exception` (client.py lines 233-246), so connect- and upgrade-phase
timeouts reach the loop as generic exceptions, not timeouts. -/
def attemptRaises : AttemptEv → Option PyErr
  | .tcpConnectTimeout => some .exception
  | .tcpConnectFail => some .exception
  | .upgradeTimeout => some .exception
  | .upgradeFail => some .exception
  | .stepTimeout => some .timeoutError
  | .protocolFail => some .exception
  | .success => none

def MAX_RETRIES : ℕ := 1

/-- Observable result of one call to `create_secure_connection`:
how many attempts ran, how many `RETRY_DELAY` sleeps (retries) happened,
and the deltas applied to the global counters `success_connections`,
`failed_connections` and `timeout_connections`. -/
structure CscResult where
  attemptsMade : ℕ
  sleeps : ℕ
  successDelta : ℕ
  failedDelta : ℕ
  timeoutDelta : ℕ
  ok : Bool
deriving DecidableEq

/-- The second iteration (`attempt = 1 = MAX_RETRIES`) of the retry loop
of `create_secure_connection`: success returns with
`success_connections += 1`; an `asyncio.TimeoutError` does
`timeout_connections += 1` and breaks; a generic `Exception` fails the
`attempt < MAX_RETRIES` test and breaks without a further retry.  Every
break falls through to the `failed_connections += 1` at line 439. -/
def cscSecondAttempt (env : ℕ → AttemptEv) : CscResult :=
  match attemptRaises (env 1) with
  | none => ⟨1, 0, 1, 0, 0, true⟩
  | some .timeoutError => ⟨1, 0, 0, 1, 1, false⟩
  | some .exception => ⟨1, 0, 0, 1, 0, false⟩

/-- The `for attempt in range(MAX_RETRIES + 1)` loop (client.py lines
374-440) with the source's constant `MAX_RETRIES = 1`, unrolled to its
two iterations (the loop body always returns or breaks, so `range(2)` is
never exhausted):

* a successful attempt does `success_connections += 1` and returns;
* an `asyncio.TimeoutError` does `timeout_connections += 1` and breaks
  immediately (no retry), falling through to `failed_connections += 1`;
* a generic `Exception` on attempt 0 passes `attempt < MAX_RETRIES`,
  sleeps `RETRY_DELAY` and retries once. -/
def cscLoop (env : ℕ → AttemptEv) : CscResult :=
  match attemptRaises (env 0) with
  | none => ⟨1, 0, 1, 0, 0, true⟩
  | some .timeoutError => ⟨1, 0, 0, 1, 1, false⟩
  | some .exception =>
    let r := cscSecondAttempt env
    ⟨r.attemptsMade + 1, r.sleeps + 1, r.successDelta, r.failedDelta,
      r.timeoutDelta, r.ok⟩

/-- The loop-prevention pre-check of `create_secure_connection`
(client.py line 367): `target.startswith('127.0.0.1:1080') or
target.startswith('127.0.0.1:1081')`.  The two ports are hard-coded
literals; the configured `socks_port`/`http_port` are not consulted. -/
def loopPrecheckRefused (target : List ℕ) : Bool :=
  (asciiStr "127.0.0.1:1080").isPrefixOf target ||
    (asciiStr "127.0.0.1:1081").isPrefixOf target

/-- Model of `create_secure_connection` at the level of attempts and counters
(client.py lines 363-440).  When the pre-check matches, the function
raises at line 368, before the retry loop and before the
`failed_connections += 1` at line 439: no counter changes and no attempt
is made. -/
def createSecureConnCounters (target : List ℕ) (env : ℕ → AttemptEv) :
    CscResult :=
  if loopPrecheckRefused target then ⟨0, 0, 0, 0, 0, false⟩
  else cscLoop env

/-! ## Flow handlers `handle_socks5` and `handle_http` -/

/-- ASCII decimal representation of a number, as Python's `str(n)` /
f-string interpolation produces for a nonnegative int. -/
def decimalAscii (n : ℕ) : List ℕ :=
  (Nat.toDigits 10 n).map Char.toNat

/-- Model of `socket.inet_ntoa` on a 4-byte address: dotted-quad ASCII. -/
def dottedQuad (ip : List ℕ) : List ℕ :=
  decimalAscii (ip.getD 0 0) ++ [46] ++ decimalAscii (ip.getD 1 0) ++ [46] ++
    decimalAscii (ip.getD 2 0) ++ [46] ++ decimalAscii (ip.getD 3 0)

/-- How the `asyncio.wait_for(create_secure_connection(target),
CONNECTION_TIMEOUT)` call in a handler plays out. -/
inductive EstScenario where
  /-- Scenario: `create_secure_connection` finishes (either way) inside the 5 s
  budget; `env` gives each attempt's outcome. -/
  | runs (env : ℕ → AttemptEv)
  /-- the 5 s budget expires first.  `asyncio.wait_for` then cancels the
  inner coroutine: `asyncio.CancelledError` derives from `BaseException`
  (Python ≥ 3.8), so neither `except asyncio.TimeoutError` nor
  `except Exception` inside `create_secure_connection` catches it, and
  the `failed_connections += 1` at line 439 is skipped too — the inner
  call terminates with no counter changes, while the handler sees an
  `asyncio.TimeoutError` from `wait_for`. -/
  | budgetExceeded

/-- Counter effect of `create_secure_connection` under `wait_for` as seen
from a handler. -/
def establish (target : List ℕ) : EstScenario → CscResult
  | .runs env => createSecureConnCounters target env
  | .budgetExceeded => ⟨0, 0, 0, 0, 0, false⟩

/-- Per-flow observables of a handler body (the part inside the
`try`/`finally`). -/
structure FlowCore where
  /-- protocol bytes the handler itself writes to the inbound client
  (the relay's payload bytes are modelled separately by the relay loop). -/
  sent : List ℕ
  successDelta : ℕ
  failedDelta : ℕ
  timeoutDelta : ℕ
  estAttempts : ℕ
  tunnelEstablished : Bool
deriving DecidableEq

/-- Per-flow observables including the `active_connections` operations:
`+1` right after the semaphore is acquired, `-1` as the first statement of
the `finally` block. -/
structure FlowResult where
  sent : List ℕ
  activeOps : List ℤ
  successDelta : ℕ
  failedDelta : ℕ
  timeoutDelta : ℕ
  estAttempts : ℕ
  tunnelEstablished : Bool
deriving DecidableEq

/-- SOCKS5 success reply (client.py line 559):
`b"\x05\x00\x00\x01" + inet_aton("0.0.0.0") + pack(">H", 0)`. -/
def socksSuccessReply : List ℕ :=
  [5, 0, 0, 1, 0, 0, 0, 0, 0, 0]

/-- The request phase of the `try` body of `handle_socks5` (client.py
lines 530-573), entered after the greeting succeeded and `05 00` was
written (`sent` starts with those bytes).  Failed reads (`none`, covering
both short streams and expired 2-second read timeouts) and protocol
violations fall to the bare `except: pass` and return with whatever was
already written:

* read the 4-byte request, require `data[1] == 0x01` — the request's
  version byte `data[0]` is not examined (lines 530-532);
* `addr_type = data[3]`: `1` → 4 bytes dotted-quad, `3` → length-prefixed
  hostname, anything else returns (lines 534-541);
* read the 2-byte big-endian port, `target = f"{addr}:{port}"`
  (lines 543-544);
* establish the tunnel under the 5 s budget; any timeout or error
  returns silently (lines 547-557); on success write the SOCKS5 success
  reply and relay (lines 559-573).

This definition is the address phase (lines 534 onward); `socks5Request`
below is the request-header phase (lines 530-534) feeding into it. -/
def socks5Addr (addrType : ℕ) (s3 : List ℕ) (est : EstScenario) : FlowCore :=
  let sent := [0x05, 0x00]
  let addrParsed : Option (List ℕ × List ℕ) :=
    if addrType = 1 then
      (readexactly 4 s3).map fun p => (dottedQuad p.1, p.2)
    else if addrType = 3 then
      match readexactly 1 s3 with
      | none => none
      | some (lb, s4) => readexactly (lb.getD 0 0) s4
    else none
  match addrParsed with
  | none => ⟨sent, 0, 0, 0, 0, false⟩
  | some (addr, s5) =>
    match readexactly 2 s5 with
    | none => ⟨sent, 0, 0, 0, 0, false⟩
    | some (pb, _) =>
      let port := fromBytesBE pb
      let target := addr ++ [58] ++ decimalAscii port
      let r := establish target est
      if r.ok then
        ⟨sent ++ socksSuccessReply, r.successDelta, r.failedDelta,
          r.timeoutDelta, r.attemptsMade, true⟩
      else
        ⟨sent, r.successDelta, r.failedDelta, r.timeoutDelta,
          r.attemptsMade, false⟩

def socks5Request (s2 : List ℕ) (est : EstScenario) : FlowCore :=
  match readexactly 4 s2 with
  | none => ⟨[0x05, 0x00], 0, 0, 0, 0, false⟩
  | some (req, s3) =>
    if req.getD 1 0 ≠ 0x01 then ⟨[0x05, 0x00], 0, 0, 0, 0, false⟩
    else socks5Addr (req.getD 3 0) s3 est

/-- The greeting phase of the `try` body of `handle_socks5` (client.py
lines 521-528): read 2 bytes, require `data[0] == 0x05`, read and discard
`nmethods` method bytes, reply `05 00` (recorded inside `socks5Request`),
then continue with the request phase. -/
def socks5Core (stream : List ℕ) (est : EstScenario) : FlowCore :=
  match readexactly 2 stream with
  | none => ⟨[], 0, 0, 0, 0, false⟩
  | some (g, s1) =>
    if g.getD 0 0 ≠ 0x05 then ⟨[], 0, 0, 0, 0, false⟩
    else
      match readexactly (g.getD 1 0) s1 with
      | none => ⟨[], 0, 0, 0, 0, false⟩
      | some (_, s2) => socks5Request s2 est

/-- A concrete instantiation of the crypto facade, used only to evaluate
theorems with abstract crypto on concrete inputs. -/
def sampleCrypto : CryptoOps :=
  ⟨fun _ _ => ([3], [4]), fun k m => k ++ m, fun k m => k ++ m, fun _ c => c⟩

/-- Model of `handle_socks5` (client.py lines 511-589): `active_connections += 1`
immediately after the semaphore is acquired (line 516), the body runs
inside `try`, and `active_connections -= 1` is the first statement of the
`finally` block (line 578), reached on every exit path. -/
def handleSocks5 (stream : List ℕ) (est : EstScenario) : FlowResult :=
  let c := socks5Core stream est
  ⟨c.sent, [1, -1], c.successDelta, c.failedDelta, c.timeoutDelta,
    c.estAttempts, c.tunnelEstablished⟩

/-- Whitespace, as recognised by Python's `str.strip()` and `str.split()`
for the characters that can occur here. -/
def isWsByte (b : ℕ) : Bool :=
  b = 32 || b = 9 || b = 13 || b = 10

/-- Model of `str.strip()` on ASCII bytes. -/
def stripWs (l : List ℕ) : List ℕ :=
  ((l.dropWhile isWsByte).reverse.dropWhile isWsByte).reverse

/-- Helper for `splitWs`: accumulates the current word (reversed). -/
def splitWsGo : List ℕ → List ℕ → List (List ℕ)
  | [], acc => if acc.isEmpty then [] else [acc.reverse]
  | b :: bs, acc =>
    if isWsByte b then
      if acc.isEmpty then splitWsGo bs [] else acc.reverse :: splitWsGo bs []
    else splitWsGo bs (b :: acc)

/-- Model of `str.split()` with no argument: split on whitespace runs, dropping
empty fields. -/
def splitWs (l : List ℕ) : List (List ℕ) :=
  splitWsGo l []

/-- Model of `s.split(sep, 1)` when `sep in s`: the part before the first `sep`
and everything after it. -/
def splitFirst (sep : ℕ) (l : List ℕ) : List ℕ × List ℕ :=
  let before := l.takeWhile (· ≠ sep)
  (before, l.drop (before.length + 1))

def http405Reply : List ℕ :=
  asciiStr "HTTP/1.1 405 Method Not Allowed" ++ [13, 10, 13, 10]

def http200Reply : List ℕ :=
  asciiStr "HTTP/1.1 200 Connection Established" ++ [13, 10, 13, 10]

/-- The `try` body of `handle_http` (client.py lines 600-647) over the
first request line (as returned by `readline`); header lines are read and
discarded and do not affect the tracked state:

* an empty line or one not starting with `CONNECT` gets the 405 reply
  (lines 601-605);
* split the stripped line on whitespace; fewer than 2 parts returns
  silently (lines 607-610);
* `host:port` splits at the first colon, with port defaulting to `"443"`
  (lines 612-618);
* establish under the 5 s budget, `except: return` on anything
  (lines 626-632); on success write the 200 reply (line 634). -/
def httpCore (requestLine : List ℕ) (est : EstScenario) : FlowCore :=
  if requestLine.isEmpty || !(asciiStr "CONNECT").isPrefixOf requestLine then
    ⟨http405Reply, 0, 0, 0, 0, false⟩
  else
    let parts := splitWs (stripWs requestLine)
    if parts.length < 2 then ⟨[], 0, 0, 0, 0, false⟩
    else
      let hostPort := parts.getD 1 []
      let target :=
        if hostPort.contains 58 then
          let hp := splitFirst 58 hostPort
          hp.1 ++ [58] ++ hp.2
        else hostPort ++ [58] ++ asciiStr "443"
      let r := establish target est
      if r.ok then
        ⟨http200Reply, r.successDelta, r.failedDelta, r.timeoutDelta,
          r.attemptsMade, true⟩
      else
        ⟨[], r.successDelta, r.failedDelta, r.timeoutDelta,
          r.attemptsMade, false⟩

/-- Model of `handle_http` (client.py lines 592-663): the same
semaphore/`try`/`finally` envelope as `handle_socks5`
(lines 596-597 and 652). -/
def handleHttp (requestLine : List ℕ) (est : EstScenario) : FlowResult :=
  let c := httpCore requestLine est
  ⟨c.sent, [1, -1], c.successDelta, c.failedDelta, c.timeoutDelta,
    c.estAttempts, c.tunnelEstablished⟩

/-! ## Downstream relay loop `ws_to_socket` -/

def WRITE_BUFFER_SIZE : ℕ := 640 * 1024

/-- Value of `WRITE_BUFFER_SIZE * DRAIN_THRESHOLD` with `DRAIN_THRESHOLD = 0.7`
(client.py lines 43, 57, 460).  Python computes `655360 * 0.7` in IEEE-754
doubles, which rounds to exactly `458752.0 = 655360 * 7 / 10`, so the
comparison `buffer_size > 655360 * 0.7` on an int agrees with the exact
rational comparison used here. -/
def drainLimit : ℕ := WRITE_BUFFER_SIZE * 7 / 10

structure RelayStats where
  trafficDown : ℕ
  bufferOverflows : ℕ
  drainOperations : ℕ
deriving DecidableEq

/-- Outcome of `asyncio.wait_for(writer.drain(), DRAIN_TIMEOUT)`. -/
inductive DrainOutcome where
  | completed
  | timedOut
deriving DecidableEq

structure IterOut where
  stats : RelayStats
  written : List ℕ
  drainAttempted : Bool
  continues : Bool
deriving DecidableEq

/-- One iteration of the `while not ws.closed` loop of `ws_to_socket`
(client.py lines 448-467), after `ws.recv()` has returned `frame`:

* if `writer.is_closing()`, break out of the loop at once — before
  `traffic_down` is updated and before anything is written (line 451-452);
* otherwise `traffic_down += len(enc_data)`, decrypt to `plaintext` and
  write it (lines 454-456);
* inspect `writer.transport.get_write_buffer_size()` (an input here,
  since it is runtime transport state): when it exceeds
  `WRITE_BUFFER_SIZE * DRAIN_THRESHOLD`, drain with a 1 s bound —
  a completed drain does `drain_operations += 1`, a timed-out one does
  `buffer_overflows += 1` and the loop continues either way
  (lines 459-467). -/
def wsToSocketIter (decryptF : List ℕ → List ℕ) (st : RelayStats)
    (frame : List ℕ) (writerClosing : Bool) (bufferSize : ℕ)
    (drain : DrainOutcome) : IterOut :=
  if writerClosing then ⟨st, [], false, false⟩
  else
    let st1 := { st with trafficDown := st.trafficDown + frame.length }
    let written := decryptF frame
    if bufferSize > drainLimit then
      match drain with
      | .completed =>
        ⟨{ st1 with drainOperations := st1.drainOperations + 1 },
          written, true, true⟩
      | .timedOut =>
        ⟨{ st1 with bufferOverflows := st1.bufferOverflows + 1 },
          written, true, true⟩
    else ⟨st1, written, false, true⟩

/-! ## Health checker -/

structure Health where
  failures : ℤ
  degraded : Bool
deriving DecidableEq

def FAILURE_THRESHOLD : ℤ := 10

/-- One tick of `health_checker` (client.py lines 171-188), reading the
current `success_connections` and `failed_connections`:

* when `total = success + failed > 0`: if `failed / total > 0.5`
  (float division, modelled exactly over ℚ) then `health_failures += 1`
  and, when the new value reaches `FAILURE_THRESHOLD` while not already
  degraded, `degraded_mode = True`; otherwise
  `health_failures = max(0, health_failures - 1)` and, when degraded and
  the new value is 0, `degraded_mode = False`;
* when `total = 0`: nothing at all happens. -/
def healthTick (success failed : ℕ) (h : Health) : Health :=
  let total := success + failed
  if 0 < total then
    if (failed : ℚ) / (total : ℚ) > 1 / 2 then
      let f := h.failures + 1
      if f ≥ FAILURE_THRESHOLD ∧ h.degraded = false then ⟨f, true⟩
      else ⟨f, h.degraded⟩
    else
      let f := max 0 (h.failures - 1)
      if h.degraded = true ∧ f = 0 then ⟨f, false⟩
      else ⟨f, h.degraded⟩
  else h

/-! ## Helper lemmas about the byte-stream primitives -/

theorem readexactly_split (l1 l2 : List ℕ) (n : ℕ) (h : n ≤ l1.length) :
    readexactly n (l1 ++ l2) = some (l1.take n, l1.drop n ++ l2) := by
  unfold readexactly
  rw [if_pos (by simp; omega), List.take_append_of_le_length h,
    List.drop_append_of_le_length h]

theorem readexactly_exact (l1 l2 : List ℕ) (n : ℕ) (h : l1.length = n) :
    readexactly n (l1 ++ l2) = some (l1, l2) := by
  subst h
  rw [readexactly_split _ _ _ le_rfl]
  simp

theorem readexactly_two (a b : ℕ) (t : List ℕ) :
    readexactly 2 (a :: b :: t) = some ([a, b], t) :=
  readexactly_exact [a, b] t 2 rfl

theorem maskBytesGo_length (mask : List ℕ) :
    ∀ i data, (maskBytesGo mask i data).length = data.length := by
  intro i data
  induction data generalizing i with
  | nil => rfl
  | cons b bs ih => simp [maskBytesGo, ih]

theorem maskBytes_length (mask data : List ℕ) :
    (maskBytes mask data).length = data.length :=
  maskBytesGo_length mask 0 data

theorem toBytesBE_length : ∀ k n, (toBytesBE k n).length = k
  | 0, _ => rfl
  | k + 1, n => by simp [toBytesBE, toBytesBE_length k]

theorem fromBytesBE_toBytesBE : ∀ k n, fromBytesBE (toBytesBE k n) = n % 256 ^ k
  | 0, n => by simp [toBytesBE, fromBytesBE, Nat.mod_one]
  | k + 1, n => by
    have ih := fromBytesBE_toBytesBE k (n / 256)
    unfold fromBytesBE at ih ⊢
    rw [toBytesBE, List.foldl_append, ih]
    simp only [List.foldl]
    rw [pow_succ, mul_comm (256 ^ k) 256, Nat.mod_mul]
    ring

theorem lor_and_127 : ∀ L, L < 128 → (128 ||| L) &&& 127 = L := by decide

theorem add128_and_127 : ∀ L, L < 128 → (L + 128) &&& 127 = L := by decide

theorem and_127_small : ∀ L, L < 128 → L &&& 127 = L := by decide

/-- What `VideoOptimizedWebSocket.recv` actually returns on a frame built
by `VideoOptimizedWebSocket.send`: since the length field written by
`send` counts only the payload, but `recv` never consumes the 4-byte mask
key, the bytes handed back are the mask key followed by the first
`len - 4` bytes of the still-masked payload, and 4 masked payload bytes
are left in the stream. -/
theorem recvFrame_buildFrame (mask p rest : List ℕ) (_hm : mask.length = 4)
    (hp : p.length < 2 ^ 64) :
    recvFrame (buildFrame mask p ++ rest) =
      some ((mask ++ maskBytes mask p).take p.length,
            (mask ++ maskBytes mask p).drop p.length ++ rest) := by
  have hmb : (maskBytes mask p).length = p.length := maskBytes_length mask p
  have hlen : p.length ≤ (mask ++ maskBytes mask p).length := by
    simp [hmb]
  have hpay : readexactly p.length ((mask ++ maskBytes mask p) ++ rest) =
      some ((mask ++ maskBytes mask p).take p.length,
            (mask ++ maskBytes mask p).drop p.length ++ rest) :=
    readexactly_split _ _ _ hlen
  by_cases h1 : p.length < 126
  · have hframe : buildFrame mask p ++ rest =
        0x82 :: (0x80 ||| p.length) :: ((mask ++ maskBytes mask p) ++ rest) := by
      simp [buildFrame, h1, List.append_assoc]
    rw [hframe]
    simp only [recvFrame, readexactly_two]
    have hl0 : ([0x82, 0x80 ||| p.length].getD 1 0) &&& 0x7F = p.length :=
      lor_and_127 _ (by omega)
    rw [hl0]
    rw [if_neg (by omega), if_neg (by omega)]
    exact hpay
  · by_cases h2 : p.length < 65536
    · have hframe : buildFrame mask p ++ rest =
          0x82 :: 254 :: (toBytesBE 2 p.length ++
            ((mask ++ maskBytes mask p) ++ rest)) := by
        simp [buildFrame, h1, h2, List.append_assoc]
      rw [hframe]
      simp only [recvFrame, readexactly_two]
      have hl0 : ([0x82, 254].getD 1 0) &&& 0x7F = 126 := by decide
      rw [hl0, if_pos rfl, readexactly_exact _ _ 2 (toBytesBE_length 2 p.length)]
      show readexactly (fromBytesBE (toBytesBE 2 p.length))
          ((mask ++ maskBytes mask p) ++ rest) = _
      rw [fromBytesBE_toBytesBE, Nat.mod_eq_of_lt (by omega)]
      exact hpay
    · have hframe : buildFrame mask p ++ rest =
          0x82 :: 255 :: (toBytesBE 8 p.length ++
            ((mask ++ maskBytes mask p) ++ rest)) := by
        simp [buildFrame, h1, h2, List.append_assoc]
      rw [hframe]
      simp only [recvFrame, readexactly_two]
      have hl0 : ([0x82, 255].getD 1 0) &&& 0x7F = 127 := by decide
      rw [hl0, if_neg (by omega), if_pos rfl,
        readexactly_exact _ _ 8 (toBytesBE_length 8 p.length)]
      show readexactly (fromBytesBE (toBytesBE 8 p.length))
          ((mask ++ maskBytes mask p) ++ rest) = _
      rw [fromBytesBE_toBytesBE, Nat.mod_eq_of_lt (by norm_num at hp ⊢; omega)]
      exact hpay

/-! ## C4 — WebSocket frame encode/decode round trip -/

/-- Claim C4, counterexample.  The claim says decoding a client-encoded
frame yields the original payload.  For payload `[0,0,0,0]` and mask
`[1,2,3,4]` the receive path returns the mask key itself (`recv` parses
the length field but never reads or removes the mask), not the payload. -/
theorem frame_roundtrip_counterexample :
    (recvFrame (buildFrame [1, 2, 3, 4] [0, 0, 0, 0])).map Prod.fst ≠
      some [0, 0, 0, 0] := by decide

/-- Claim C4, amended.  For every payload (all three length encodings) and
every 4-byte mask, decoding the client-encoded frame with the receive
path yields the mask key followed by the still-masked payload, truncated
to the payload's length — not the original payload; the 4 trailing masked
bytes are left in the stream. -/
theorem frame_decode_of_encode (mask p rest : List ℕ) (hm : mask.length = 4)
    (hp : p.length < 2 ^ 64) :
    recvFrame (buildFrame mask p ++ rest) =
      some ((mask ++ maskBytes mask p).take p.length,
            (mask ++ maskBytes mask p).drop p.length ++ rest) :=
  recvFrame_buildFrame mask p rest hm hp

/-- Claim C4, witness. -/
theorem frame_decode_of_encode_witness :
    recvFrame (buildFrame [1, 2, 3, 4] [7, 8, 9] ++ [5]) =
      some ((([1, 2, 3, 4] : List ℕ) ++
              maskBytes [1, 2, 3, 4] [7, 8, 9]).take ([7, 8, 9] : List ℕ).length,
            (([1, 2, 3, 4] : List ℕ) ++
              maskBytes [1, 2, 3, 4] [7, 8, 9]).drop ([7, 8, 9] : List ℕ).length
              ++ [5]) :=
  frame_decode_of_encode [1, 2, 3, 4] [7, 8, 9] [5] (by decide) (by decide)

/-! ## C10 — the receive path parses only the length field -/

/-- Claim C10, confirmed.  `VideoOptimizedWebSocket.recv` parses only the
length field of the 2-byte header:
1. the first header byte (FIN bit and opcode — including close `0x8`,
   which is therefore delivered as ordinary data) is ignored;
2. the mask bit of the second byte is ignored;
3. exactly the declared number of payload bytes is read and returned
   unmodified;
4. consequently a client-masked frame is returned still masked, with its
   4-byte mask key consumed as payload data. -/
theorem recv_parses_length_only :
    (∀ b0 b0' h1 s, recvFrame (b0 :: h1 :: s) = recvFrame (b0' :: h1 :: s)) ∧
    (∀ b0 h1 s, h1 < 128 →
      recvFrame (b0 :: (h1 + 128) :: s) = recvFrame (b0 :: h1 :: s)) ∧
    (∀ b0 L payload rest, L < 126 → payload.length = L →
      recvFrame (b0 :: (L + 128) :: (payload ++ rest)) = some (payload, rest)) ∧
    (∀ mask p rest, mask.length = 4 → p.length < 2 ^ 64 →
      (recvFrame (buildFrame mask p ++ rest)).map Prod.fst =
        some ((mask ++ maskBytes mask p).take p.length)) := by
  refine ⟨?_, ?_, ?_, ?_⟩
  · intro b0 b0' h1 s
    simp only [recvFrame, readexactly_two, List.getD_cons_succ,
      List.getD_cons_zero]
  · intro b0 h1 s hh
    simp only [recvFrame, readexactly_two, List.getD_cons_succ,
      List.getD_cons_zero, add128_and_127 h1 hh, and_127_small h1 hh]
  · intro b0 L payload rest hL hlen
    simp only [recvFrame, readexactly_two, List.getD_cons_succ,
      List.getD_cons_zero, add128_and_127 L (by omega)]
    rw [if_neg (by omega), if_neg (by omega)]
    exact readexactly_exact payload rest L hlen
  · intro mask p rest hm hp
    rw [recvFrame_buildFrame mask p rest hm hp]
    rfl

/-- Claim C10, witness.  A close frame (first byte `0x88`) with the mask
bit set and declared length 2 is delivered as ordinary data. -/
theorem recv_parses_length_only_witness :
    recvFrame (0x88 :: (2 + 128) :: (([7, 9] : List ℕ) ++ [])) =
      some ([7, 9], []) :=
  recv_parses_length_only.2.2.1 0x88 2 [7, 9] [] (by decide) (by decide)

/-! ## C1 — handshake frame sequence -/

/-- Claim C1, confirmed.  For every tunnel establishment attempt, after
the WebSocket upgrade the client performs exactly the claimed frame
sequence: the first frame sent is `client_pub`; a `server_pub` frame of
length ≠ 32 fails after only that one frame; otherwise, with
`(send_key, recv_key) = derive_keys(psk, client_pub ++ server_pub)`, the
second frame sent is `HMAC-SHA256(send_key, "auth")` and an auth response
different from `HMAC-SHA256(recv_key, "ok")` fails with `AuthFailed`;
otherwise the third frame sent is
`encrypt(send_key, utf8("CONNECT " ++ target))`, and the attempt succeeds
exactly when `decrypt(recv_key, reply) = "OK"`, failing otherwise with
the decrypted bytes as the rejection reason (Python decodes them
best-effort for the message; the bytes are carried here). -/
theorem handshake_frame_sequence (C : CryptoOps)
    (psk target clientPub sp ar cr : List ℕ) :
    ((attemptHandshake C psk target clientPub [sp, ar, cr]).sent.getD 0 []
      = clientPub) ∧
    (sp.length ≠ 32 →
      attemptHandshake C psk target clientPub [sp, ar, cr] =
        ⟨[clientPub], .error .serverPubLen⟩) ∧
    (sp.length = 32 →
     ar ≠ C.hmacSha256 (C.deriveKeys psk (clientPub ++ sp)).2 (asciiStr "ok") →
      attemptHandshake C psk target clientPub [sp, ar, cr] =
        ⟨[clientPub,
          C.hmacSha256 (C.deriveKeys psk (clientPub ++ sp)).1 (asciiStr "auth")],
          .error .authFailed⟩) ∧
    (sp.length = 32 →
     ar = C.hmacSha256 (C.deriveKeys psk (clientPub ++ sp)).2 (asciiStr "ok") →
      (attemptHandshake C psk target clientPub [sp, ar, cr]).sent =
        [clientPub,
         C.hmacSha256 (C.deriveKeys psk (clientPub ++ sp)).1 (asciiStr "auth"),
         C.encrypt (C.deriveKeys psk (clientPub ++ sp)).1
           (asciiStr "CONNECT " ++ target)] ∧
      (C.decrypt (C.deriveKeys psk (clientPub ++ sp)).2 cr = asciiStr "OK" →
        (attemptHandshake C psk target clientPub [sp, ar, cr]).result =
          .ok ((C.deriveKeys psk (clientPub ++ sp)).1,
               (C.deriveKeys psk (clientPub ++ sp)).2)) ∧
      (C.decrypt (C.deriveKeys psk (clientPub ++ sp)).2 cr ≠ asciiStr "OK" →
        (attemptHandshake C psk target clientPub [sp, ar, cr]).result =
          .error (.connectRejected
            (C.decrypt (C.deriveKeys psk (clientPub ++ sp)).2 cr)))) := by
  refine ⟨?_, ?_, ?_, ?_⟩
  · simp only [attemptHandshake, recv1]
    split_ifs <;> simp
  · intro h1
    simp [attemptHandshake, recv1, h1]
  · intro h1 h2
    simp [attemptHandshake, recv1, h1, h2]
  · intro h1 h2
    refine ⟨?_, ?_, ?_⟩
    · simp only [attemptHandshake, recv1, h1, h2]
      norm_num
      split_ifs <;> rfl
    · intro h3
      simp [attemptHandshake, recv1, h1, h2, h3]
    · intro h3
      simp [attemptHandshake, recv1, h1, h2, h3]

/-- Claim C1, witness. -/
theorem handshake_frame_sequence_witness :
    (attemptHandshake sampleCrypto [1] [9] [2]
      [List.replicate 32 0, [4] ++ asciiStr "ok", asciiStr "OK"]).result =
      .ok ([3], [4]) := by
  have h := (handshake_frame_sequence sampleCrypto [1] [9] [2]
    (List.replicate 32 0) ([4] ++ asciiStr "ok") (asciiStr "OK")).2.2.2
    (by decide) (by decide)
  exact h.2.1 (by decide)

/-! ## Helper lemmas about the SOCKS5 handler stages -/

theorem socks5Core_split (n : ℕ) (methods tail : List ℕ) (est : EstScenario)
    (h : methods.length = n) :
    socks5Core (5 :: n :: (methods ++ tail)) est = socks5Request tail est := by
  unfold socks5Core
  rw [readexactly_two]
  show (match readexactly n (methods ++ tail) with
    | none => (⟨[], 0, 0, 0, 0, false⟩ : FlowCore)
    | some (_, s2) => socks5Request s2 est) = socks5Request tail est
  rw [readexactly_exact methods tail n h]

theorem socks5Request_cons (v c x y : ℕ) (tail : List ℕ) (est : EstScenario) :
    socks5Request (v :: c :: x :: y :: tail) est =
      if c ≠ 1 then ⟨[5, 0], 0, 0, 0, 0, false⟩ else socks5Addr y tail est := by
  unfold socks5Request
  rw [show (v :: c :: x :: y :: tail) = [v, c, x, y] ++ tail by simp,
    readexactly_exact [v, c, x, y] tail 4 (by simp)]
  rfl

theorem socks5Addr_loopback (env : ℕ → AttemptEv) :
    socks5Addr 1 [127, 0, 0, 1, 4, 56] (.runs env) =
      ⟨[5, 0], 0, 0, 0, 0, false⟩ := by
  unfold socks5Addr
  simp [show readexactly 4 ([127, 0, 0, 1, 4, 56] : List ℕ) =
      some ([127, 0, 0, 1], [4, 56]) from by decide,
    show readexactly 2 ([4, 56] : List ℕ) = some ([4, 56], []) from by decide,
    show dottedQuad [127, 0, 0, 1] ++ [58] ++ decimalAscii (fromBytesBE [4, 56])
        = asciiStr "127.0.0.1:1080" from by decide,
    establish, createSecureConnCounters,
    show loopPrecheckRefused (asciiStr "127.0.0.1:1080") = true from by decide]

/-! ## C2 — loop prevention -/

/-- Claim C2, counterexample.  The claim says a target equal to the
configured loopback endpoint is refused before contacting the server and
the failure increments `failed_connections` by exactly 1.  Both parts
fail on the code:
* even for the hard-coded default endpoint `127.0.0.1:1080` the refusal
  raises at line 368, before the loop, so `failed_connections` stays 0
  (not 1);
* with a non-default configured port (e.g. `socks_port = 9999`) the
  self-target `127.0.0.1:9999` is not refused at all: the pre-check
  compares against the hard-coded literals only, and an attempt contacts
  the server. -/
theorem loop_prevention_counterexample :
    (createSecureConnCounters (asciiStr "127.0.0.1:1080")
        (fun _ => .success)).failedDelta = 0 ∧
    loopPrecheckRefused (asciiStr "127.0.0.1:9999") = false ∧
    (createSecureConnCounters (asciiStr "127.0.0.1:9999")
        (fun _ => .success)).attemptsMade = 1 := by
  decide

/-- Claim C2, amended.  For every target string starting with the
hard-coded literals `127.0.0.1:1080` or `127.0.0.1:1081` (independent of
the configured ports), `create_secure_connection` raises before any
attempt — the server is never contacted — and updates no counters:
`failed_connections` is **not** incremented.  In the SOCKS5 handler the
error is swallowed, so for such a request only the greeting reply `05 00`
is ever written and the client then observes its connection being
closed. -/
theorem loop_prevention_hardcoded :
    (∀ target env, loopPrecheckRefused target = true →
      createSecureConnCounters target env = ⟨0, 0, 0, 0, 0, false⟩) ∧
    (∀ n methods r env, methods.length = n →
      handleSocks5 (5 :: n :: (methods ++ [5, 1, r, 1, 127, 0, 0, 1, 4, 56]))
        (.runs env) = ⟨[5, 0], [1, -1], 0, 0, 0, 0, false⟩) := by
  constructor
  · intro target env h
    simp [createSecureConnCounters, h]
  · intro n methods r env hmn
    unfold handleSocks5
    rw [socks5Core_split n methods _ _ hmn,
      show ([5, 1, r, 1, 127, 0, 0, 1, 4, 56] : List ℕ) =
        5 :: 1 :: r :: 1 :: [127, 0, 0, 1, 4, 56] from rfl,
      socks5Request_cons, if_neg (by simp), socks5Addr_loopback]

/-- Claim C2, witness. -/
theorem loop_prevention_hardcoded_witness :
    handleSocks5 (5 :: 1 :: ([0] ++ [5, 1, 0, 1, 127, 0, 0, 1, 4, 56]))
      (.runs fun _ => .success) = ⟨[5, 0], [1, -1], 0, 0, 0, 0, false⟩ :=
  loop_prevention_hardcoded.2 1 [0] 0 (fun _ => .success) (by decide)

/-! ## C3 — retry policy -/

/-- Claim C3, counterexample.  The claim says a timeout on *any* step
(including TCP connect) terminates establishment immediately without a
retry.  But `VideoOptimizedWebSocket.connect` converts its
`asyncio.TimeoutError` into a plain `Exception` (line 233-234), which the
retry loop treats as a non-timeout failure: after a TCP-connect timeout
on attempt 0 the client sleeps `RETRY_DELAY` once and runs a second
attempt. -/
theorem connect_timeout_retry_counterexample :
    (createSecureConnCounters (asciiStr "example.com:443")
        (fun k => if k = 0 then .tcpConnectTimeout else .success)).sleeps = 1 ∧
    (createSecureConnCounters (asciiStr "example.com:443")
        (fun k => if k = 0 then .tcpConnectTimeout else .success)).attemptsMade
      = 2 := by
  decide

/-- Claim C3, amended.  Only an `asyncio.TimeoutError` escaping the attempt
body itself (the 2 s waits on key exchange / auth / CONNECT and the send
timeout) terminates establishment immediately without retry, with
`timeout_connections += 1` (and `failed_connections += 1` after the
loop).  A timeout during TCP connect or the WebSocket upgrade is
converted by `VideoOptimizedWebSocket.connect` into a plain `Exception`
and is treated like any non-timeout failure: exactly one retry after the
backoff.  A success on either attempt increments `success_connections`
once. -/
theorem retry_policy (target : List ℕ) (env : ℕ → AttemptEv)
    (h : loopPrecheckRefused target = false) :
    (env 0 = .stepTimeout →
      createSecureConnCounters target env = ⟨1, 0, 0, 1, 1, false⟩) ∧
    (env 0 = .success →
      createSecureConnCounters target env = ⟨1, 0, 1, 0, 0, true⟩) ∧
    (attemptRaises (env 0) = some .exception →
      (env 1 = .stepTimeout →
        createSecureConnCounters target env = ⟨2, 1, 0, 1, 1, false⟩) ∧
      (env 1 = .success →
        createSecureConnCounters target env = ⟨2, 1, 1, 0, 0, true⟩) ∧
      (attemptRaises (env 1) = some .exception →
        createSecureConnCounters target env = ⟨2, 1, 0, 1, 0, false⟩)) := by
  have hb : createSecureConnCounters target env = cscLoop env := by
    simp [createSecureConnCounters, h]
  refine ⟨?_, ?_, ?_⟩
  · intro h0
    rw [hb]
    simp [cscLoop, h0, attemptRaises]
  · intro h0
    rw [hb]
    simp [cscLoop, h0, attemptRaises]
  · intro h0
    refine ⟨?_, ?_, ?_⟩
    · intro h1
      rw [hb]
      simp [cscLoop, cscSecondAttempt, h0, h1,
        show attemptRaises .stepTimeout = some PyErr.timeoutError from rfl]
    · intro h1
      rw [hb]
      simp [cscLoop, cscSecondAttempt, h0, h1,
        show attemptRaises .success = none from rfl]
    · intro h1
      rw [hb]
      simp [cscLoop, cscSecondAttempt, h0, h1]

/-- Claim C3, witness. -/
theorem retry_policy_witness :
    createSecureConnCounters (asciiStr "example.com:443")
      (fun _ => AttemptEv.stepTimeout) = ⟨1, 0, 0, 1, 1, false⟩ :=
  (retry_policy (asciiStr "example.com:443") (fun _ => AttemptEv.stepTimeout)
    (by decide)).1 rfl

/-! ## C5 — active_connections balance -/

/-- Claim C5, confirmed.  In both handlers `active_connections` is
incremented exactly once, immediately after the admission slot is
acquired, and decremented exactly once in the `finally` block reached on
every exit path: the operation trace of every flow is exactly `[+1, -1]`.
Consequently, applied to any pre-admission value `≥ 0`, the counter never
goes below 0 during the flow and returns to the pre-admission value after
full teardown. -/
theorem active_connections_balance :
    (∀ stream est, (handleSocks5 stream est).activeOps = [1, -1]) ∧
    (∀ line est, (handleHttp line est).activeOps = [1, -1]) ∧
    (∀ stream est (pre : ℤ), 0 ≤ pre →
      (handleSocks5 stream est).activeOps.foldl (· + ·) pre = pre ∧
      ∀ v ∈ (handleSocks5 stream est).activeOps.scanl (· + ·) pre, 0 ≤ v) ∧
    (∀ line est (pre : ℤ), 0 ≤ pre →
      (handleHttp line est).activeOps.foldl (· + ·) pre = pre ∧
      ∀ v ∈ (handleHttp line est).activeOps.scanl (· + ·) pre, 0 ≤ v) := by
  refine ⟨fun _ _ => rfl, fun _ _ => rfl, ?_, ?_⟩
  · intro stream est pre hpre
    constructor
    · show List.foldl (· + ·) pre [1, -1] = pre
      simp
    · show ∀ v ∈ List.scanl (· + ·) pre [1, -1], 0 ≤ v
      intro v hv
      simp [List.scanl] at hv
      rcases hv with h | h | h <;> omega
  · intro line est pre hpre
    constructor
    · show List.foldl (· + ·) pre [1, -1] = pre
      simp
    · show ∀ v ∈ List.scanl (· + ·) pre [1, -1], 0 ≤ v
      intro v hv
      simp [List.scanl] at hv
      rcases hv with h | h | h <;> omega

/-- Claim C5, witness. -/
theorem active_connections_balance_witness :
    (handleSocks5 [] .budgetExceeded).activeOps.foldl (· + ·) 0 = 0 :=
  (active_connections_balance.2.2.1 [] .budgetExceeded 0 (by decide)).1

/-! ## C6 — establishment budget timeout -/

theorem socks5Addr_budget (a : ℕ) (s3 : List ℕ) :
    socks5Addr a s3 .budgetExceeded = ⟨[5, 0], 0, 0, 0, 0, false⟩ := by
  unfold socks5Addr
  simp only [establish]
  repeat' split
  all_goals first | rfl | simp_all

theorem socks5Request_budget (s2 : List ℕ) :
    socks5Request s2 .budgetExceeded = ⟨[5, 0], 0, 0, 0, 0, false⟩ := by
  unfold socks5Request
  repeat' split
  all_goals first | rfl | exact socks5Addr_budget _ _

theorem socks5Core_budget (stream : List ℕ) :
    socks5Core stream .budgetExceeded = ⟨[], 0, 0, 0, 0, false⟩ ∨
    socks5Core stream .budgetExceeded = ⟨[5, 0], 0, 0, 0, 0, false⟩ := by
  unfold socks5Core
  repeat' split
  all_goals first | (left; rfl) | (right; exact socks5Request_budget _)

theorem httpCore_budget (line : List ℕ) :
    httpCore line .budgetExceeded = ⟨http405Reply, 0, 0, 0, 0, false⟩ ∨
    httpCore line .budgetExceeded = ⟨[], 0, 0, 0, 0, false⟩ := by
  unfold httpCore
  simp only [establish]
  repeat' split
  all_goals first | (left; rfl) | (right; rfl) | simp_all

/-- Claim C6, counterexample.  A well-formed SOCKS5 flow whose tunnel
establishment exceeds the 5 s budget: the `asyncio.wait_for` in the
handler raises `asyncio.TimeoutError` in the handler's frame while the
inner `create_secure_connection` is cancelled (`CancelledError`, which
its `except asyncio.TimeoutError` / `except Exception` clauses do not
catch), so `timeout_connections` stays 0 — not incremented by 1 as the
claim states. -/
theorem budget_timeout_counter_counterexample :
    (handleSocks5 [5, 0, 5, 1, 0, 1, 93, 184, 216, 34, 1, 187]
        .budgetExceeded).timeoutDelta = 0 ∧
    (handleSocks5 [5, 0, 5, 1, 0, 1, 93, 184, 216, 34, 1, 187]
        .budgetExceeded).sent = [5, 0] := by
  decide

/-- Claim C6, amended.  A flow whose tunnel establishment exceeds the 5 s
budget is aborted silently — no success reply is ever written (for SOCKS5
at most the protocol-phase greeting reply `05 00` was sent, for HTTP at
most the 405 reply on a non-CONNECT line) and no tunnel is established —
but **no** counter is incremented: the budget cancellation bypasses
`create_secure_connection`'s `except` clauses, so `timeout_connections`
(and `failed_connections`, `success_connections`) are unchanged. -/
theorem budget_timeout_silent :
    (∀ stream,
      ((handleSocks5 stream .budgetExceeded).sent = [] ∨
       (handleSocks5 stream .budgetExceeded).sent = [5, 0]) ∧
      (handleSocks5 stream .budgetExceeded).timeoutDelta = 0 ∧
      (handleSocks5 stream .budgetExceeded).failedDelta = 0 ∧
      (handleSocks5 stream .budgetExceeded).successDelta = 0 ∧
      (handleSocks5 stream .budgetExceeded).tunnelEstablished = false) ∧
    (∀ line,
      ((handleHttp line .budgetExceeded).sent = [] ∨
       (handleHttp line .budgetExceeded).sent = http405Reply) ∧
      (handleHttp line .budgetExceeded).timeoutDelta = 0 ∧
      (handleHttp line .budgetExceeded).failedDelta = 0 ∧
      (handleHttp line .budgetExceeded).successDelta = 0 ∧
      (handleHttp line .budgetExceeded).tunnelEstablished = false) := by
  constructor
  · intro stream
    unfold handleSocks5
    rcases socks5Core_budget stream with h | h <;> rw [h] <;> simp
  · intro line
    unfold handleHttp
    rcases httpCore_budget line with h | h <;> rw [h] <;> simp

/-! ## C7 — SOCKS5 request validation -/

/-- Claim C7, counterexample.  A SOCKS5 request whose 4-byte header has
version byte `0x04` (≠ 0x05) but command `0x01`: the claim says the
handler closes silently with no success reply and no tunnel; the code
never examines the request's version byte, establishes the tunnel, and
writes the success reply. -/
theorem socks5_version_byte_counterexample :
    (handleSocks5 [5, 0, 4, 1, 0, 1, 93, 184, 216, 34, 1, 187]
        (.runs fun _ => .success)).tunnelEstablished = true ∧
    (handleSocks5 [5, 0, 4, 1, 0, 1, 93, 184, 216, 34, 1, 187]
        (.runs fun _ => .success)).sent = [5, 0] ++ socksSuccessReply := by
  decide

/-- Claim C7, amended.  For every SOCKS5 request whose 4-byte request
header has command byte ≠ 0x01, the handler closes silently: only the
greeting reply `05 00` was written, no success reply is sent and no
tunnel is established.  The version byte of the request header is never
examined (version is checked only in the 2-byte greeting): the handler's
behaviour is identical for any two values of that byte. -/
theorem socks5_request_checks :
    (∀ n methods v c x y tail est, methods.length = n → c ≠ 1 →
      handleSocks5 (5 :: n :: (methods ++ v :: c :: x :: y :: tail)) est =
        ⟨[5, 0], [1, -1], 0, 0, 0, 0, false⟩) ∧
    (∀ n methods v v' c x y tail est, methods.length = n →
      handleSocks5 (5 :: n :: (methods ++ v :: c :: x :: y :: tail)) est =
        handleSocks5 (5 :: n :: (methods ++ v' :: c :: x :: y :: tail)) est) := by
  constructor
  · intro n methods v c x y tail est hm hc
    unfold handleSocks5
    rw [socks5Core_split n methods _ _ hm, socks5Request_cons, if_pos hc]
  · intro n methods v v' c x y tail est hm
    unfold handleSocks5
    rw [socks5Core_split n methods _ _ hm, socks5Core_split n methods _ _ hm,
      socks5Request_cons, socks5Request_cons]

/-- Claim C7, witness. -/
theorem socks5_request_checks_witness :
    handleSocks5 (5 :: 0 :: (([] : List ℕ) ++ 5 :: 2 :: 0 :: 1 ::
        [1, 2, 3, 4, 0, 80])) .budgetExceeded =
      ⟨[5, 0], [1, -1], 0, 0, 0, 0, false⟩ :=
  socks5_request_checks.1 0 [] 5 2 0 1 [1, 2, 3, 4, 0, 80] .budgetExceeded
    rfl (by decide)

/-! ## C8 — downstream relay iteration -/

/-- Claim C8, counterexample.  The claim says every received frame's
payload length is added to `traffic_down`.  But when the inbound writer
is already closing, the loop breaks *before* the `traffic_down` update
(line 451-452): the received 3-byte frame is not counted. -/
theorem relay_closing_frame_counterexample :
    (wsToSocketIter (fun x => x) ⟨0, 0, 0⟩ [1, 2, 3] true 0
        .completed).stats.trafficDown = 0 ∧
    ¬ ((wsToSocketIter (fun x => x) ⟨0, 0, 0⟩ [1, 2, 3] true 0
        .completed).stats.trafficDown =
      (⟨0, 0, 0⟩ : RelayStats).trafficDown + ([1, 2, 3] : List ℕ).length) := by
  decide

/-- Claim C8, amended.  In each iteration of the downstream relay loop with
the writer still open: the payload length is added to `traffic_down`, the
decrypted frame is written, the write-buffer size is inspected and a
bounded drain is attempted iff it exceeds
`DRAIN_THRESHOLD × WRITE_BUFFER_SIZE`; a drain timeout increments
`buffer_overflows` by 1 (a completed drain increments `drain_operations`)
and the loop continues either way.  A frame received after the writer has
begun closing breaks the loop before being counted or written. -/
theorem relay_iteration_spec (decryptF : List ℕ → List ℕ) (st : RelayStats)
    (frame : List ℕ) (bufferSize : ℕ) (drain : DrainOutcome) :
    wsToSocketIter decryptF st frame true bufferSize drain =
      ⟨st, [], false, false⟩ ∧
    (wsToSocketIter decryptF st frame false bufferSize drain).stats.trafficDown
      = st.trafficDown + frame.length ∧
    (wsToSocketIter decryptF st frame false bufferSize drain).written
      = decryptF frame ∧
    (wsToSocketIter decryptF st frame false bufferSize drain).continues
      = true ∧
    ((wsToSocketIter decryptF st frame false bufferSize drain).drainAttempted
      = true ↔ bufferSize > drainLimit) ∧
    (bufferSize > drainLimit → drain = .timedOut →
      (wsToSocketIter decryptF st frame false bufferSize
        drain).stats.bufferOverflows = st.bufferOverflows + 1 ∧
      (wsToSocketIter decryptF st frame false bufferSize
        drain).stats.drainOperations = st.drainOperations) ∧
    (bufferSize > drainLimit → drain = .completed →
      (wsToSocketIter decryptF st frame false bufferSize
        drain).stats.drainOperations = st.drainOperations + 1 ∧
      (wsToSocketIter decryptF st frame false bufferSize
        drain).stats.bufferOverflows = st.bufferOverflows) ∧
    (¬ bufferSize > drainLimit →
      (wsToSocketIter decryptF st frame false bufferSize
        drain).stats.bufferOverflows = st.bufferOverflows ∧
      (wsToSocketIter decryptF st frame false bufferSize
        drain).stats.drainOperations = st.drainOperations) := by
  unfold wsToSocketIter
  by_cases hb : bufferSize > drainLimit
  · cases drain <;> simp [hb]
  · cases drain <;> simp [hb]

/-- Claim C8, witness. -/
theorem relay_iteration_spec_witness :
    (wsToSocketIter (fun x => x) ⟨0, 0, 0⟩ [9] false (drainLimit + 1)
        .timedOut).stats.bufferOverflows =
      (⟨0, 0, 0⟩ : RelayStats).bufferOverflows + 1 ∧
    (wsToSocketIter (fun x => x) ⟨0, 0, 0⟩ [9] false (drainLimit + 1)
        .timedOut).stats.drainOperations =
      (⟨0, 0, 0⟩ : RelayStats).drainOperations :=
  (relay_iteration_spec (fun x => x) ⟨0, 0, 0⟩ [9] (drainLimit + 1)
    .timedOut).2.2.2.2.2.1 (by decide) rfl

/-! ## C9 — health checker -/

/-- The float comparison `failed / total > 0.5` of the source, expressed
exactly over ℚ, is equivalent to the integer comparison
`total < 2 * failed`. -/
theorem failure_rate_gt_half_iff (f t : ℕ) (ht : 0 < t) :
    ((f : ℚ) / (t : ℚ) > 1 / 2) ↔ t < 2 * f := by
  have ht' : (0 : ℚ) < (t : ℚ) := by exact_mod_cast ht
  rw [gt_iff_lt, div_lt_div_iff₀ (by norm_num) ht', one_mul,
    show ((f : ℚ) * 2) = ((2 * f : ℕ) : ℚ) by push_cast; ring]
  exact Nat.cast_lt

/-- Claim C9, counterexample.  The claim says that whenever the condition
`success+failed > 0 ∧ rate > 0.5` does not hold, `health_failures` is
decremented toward 0.  But on a tick with `success + failed = 0` the
checker does nothing at all (the whole body is guarded by `total > 0`):
with `health_failures = 5` it stays 5 instead of dropping to 4. -/
theorem health_idle_tick_counterexample :
    (healthTick 0 0 ⟨5, false⟩).failures = 5 ∧
    ¬ ((healthTick 0 0 ⟨5, false⟩).failures = 5 - 1) := by
  decide

/-- Claim C9, amended.  On a tick with `success + failed = 0` the health
state is left completely unchanged (no decrement).  On a tick with
`success + failed > 0`: if `failed/(success+failed) > 0.5` then
`health_failures` is incremented by 1 and `degraded_mode` ends up true
iff it already was or the new count reaches `FAILURE_THRESHOLD = 10`
(so, from a non-degraded state with count < 10, it becomes true exactly
when the count reaches 10); otherwise `health_failures` becomes
`max 0 (health_failures - 1)` and `degraded_mode` ends up false iff it
already was false or the new count is 0 (so, from a degraded state with
count ≥ 0, it is cleared exactly when the count returns to 0).
`health_failures ≥ 0` is preserved by every tick. -/
theorem health_tick_spec (s f : ℕ) (h : Health) :
    (0 ≤ h.failures → 0 ≤ (healthTick s f h).failures) ∧
    (s + f = 0 → healthTick s f h = h) ∧
    (0 < s + f → s + f < 2 * f →
      (healthTick s f h).failures = h.failures + 1 ∧
      ((healthTick s f h).degraded = true ↔
        (h.degraded = true ∨ h.failures + 1 ≥ FAILURE_THRESHOLD))) ∧
    (0 < s + f → ¬ (s + f < 2 * f) →
      (healthTick s f h).failures = max 0 (h.failures - 1) ∧
      ((healthTick s f h).degraded = false ↔
        (h.degraded = false ∨ max 0 (h.failures - 1) = 0))) ∧
    (h.degraded = false → h.failures < FAILURE_THRESHOLD →
      ((healthTick s f h).degraded = true ↔
        (0 < s + f ∧ s + f < 2 * f ∧ h.failures = 9))) ∧
    (h.degraded = true → 0 ≤ h.failures →
      ((healthTick s f h).degraded = false ↔
        (0 < s + f ∧ ¬ (s + f < 2 * f) ∧ h.failures ≤ 1))) := by
  by_cases hT : 0 < s + f
  · by_cases hR : s + f < 2 * f
    · have hQ : ((f : ℚ) / ((s + f : ℕ) : ℚ) > 1 / 2) :=
        (failure_rate_gt_half_iff f (s + f) hT).mpr hR
      simp only [healthTick, if_pos hT, if_pos hQ, FAILURE_THRESHOLD]
      refine ⟨?_, ?_, ?_, ?_, ?_, ?_⟩
      · intro h0
        split_ifs <;> simp <;> omega
      · omega
      · intro _ _
        constructor
        · split_ifs <;> rfl
        · split_ifs with hc <;> simp_all
      · intro _ hc
        exact absurd hR hc
      · intro hd hlt
        split_ifs with hc <;> simp_all <;> omega
      · intro hd h0
        split_ifs with hc <;> simp_all
    · have hQ : ¬ ((f : ℚ) / ((s + f : ℕ) : ℚ) > 1 / 2) := by
        rw [failure_rate_gt_half_iff f (s + f) hT]
        exact hR
      simp only [healthTick, if_pos hT, if_neg hQ, FAILURE_THRESHOLD]
      refine ⟨?_, ?_, ?_, ?_, ?_, ?_⟩
      · intro h0
        split_ifs <;> simp
      · omega
      · intro _ hc
        exact absurd hc hR
      · intro _ _
        constructor
        · split_ifs <;> rfl
        · split_ifs with hc
          · simp [hc.2]
          · cases hdg : h.degraded
            · simp [hdg]
            · have hmx : ¬ (max 0 (h.failures - 1) = 0) :=
                fun hmax => hc ⟨hdg, hmax⟩
              simp [hdg, hmx]
      · intro hd hlt
        split_ifs with hc <;> simp_all
      · intro hd h0
        split_ifs with hc <;> simp_all [sup_eq_max]
  · refine ⟨?_, ?_, ?_, ?_, ?_, ?_⟩
    · intro h0
      simp only [healthTick, if_neg hT]
      exact h0
    · intro _
      simp only [healthTick, if_neg hT]
    · intro hc
      exact absurd hc hT
    · intro hc
      exact absurd hc hT
    · intro hd hlt
      simp [healthTick, if_neg hT, hd, hT]
    · intro hd h0
      simp [healthTick, if_neg hT, hd, hT]

/-- Claim C9, witness. -/
theorem health_tick_spec_witness :
    (healthTick 0 1 ⟨9, false⟩).failures = (⟨9, false⟩ : Health).failures + 1 :=
  ((health_tick_spec 0 1 ⟨9, false⟩).2.2.1 (by decide) (by decide)).1
